import Mathlib

/-!
Verification of the fusion_idea_addin command channel against its design
specification.

The development shallowly embeds the add-in's Python source
(`fusion_idea_addin.py`): the HTTP command listener
(`RunScriptHTTPRequestHandler.do_POST`), the confirmation gate
(`VerifyRunScriptEventHandler.notify`), the script runner
(`RunScriptEventHandler.notify`) and the SSDP discovery responder
(`SSDPRequestHandler.handle`).  External library calls (RSA signature
verification via `rsa.verify`, JSON parsing of the inner message, and the
SHA-1 hash from `hashlib`) are passed in as oracle functions; everything
else is translated directly from the source.  Each handler is modelled as a
pure function returning the ordered list of externally visible actions it
performs (trust-store lookups, responses, event enqueues, ...) together with
the resulting trust store, in the order the source performs them.
-/

namespace FusionIdeaAddin

/-- A signed command envelope, as parsed from the JSON body of a POST
request: fields `pubkey_modulus`, `pubkey_exponent`, `message`,
`signature` (the latter two kept as the raw strings the code holds). -/
structure Envelope where
  pubkeyModulus : String
  pubkeyExponent : String
  message : String
  signature : String
deriving DecidableEq, Repr

/-- The inner command carried (JSON-encoded) in an envelope's `message`
field: `nonce`, optional `script` path, `debug` flag (an integer, as the
code does `int(args["debug"])`), `debug_port` and `pydevd_path`. -/
structure InnerCommand where
  nonce : Int
  script : Option String
  debug : Int
  debugPort : Int
  pydevdPath : String
deriving DecidableEq, Repr

/-- The trust store `AddIn._trusted_keys`: a Python dict from fingerprint
string to the last accepted nonce, modelled as an insertion-ordered
association list. -/
abbrev TrustStore := List (String × Int)

/-- Embeds `AddIn.get_trusted_key_nonce` (`self._trusted_keys.get(key)`). -/
def getTrustedKeyNonce : TrustStore → String → Option Int
  | [], _ => none
  | (k, v) :: rest, key => if k = key then some v else getTrustedKeyNonce rest key

/-- Embeds `AddIn.set_trusted_key_nonce` (`self._trusted_keys[key] = nonce`):
replaces the value of an existing key in place, otherwise appends. -/
def setTrustedKeyNonce : TrustStore → String → Int → TrustStore
  | [], key, n => [(key, n)]
  | (k, v) :: rest, key, n =>
      if k = key then (k, n) :: rest else (k, v) :: setTrustedKeyNonce rest key n

/-- The fingerprint string the code builds:
`request_json["pubkey_modulus"] + ":" + request_json["pubkey_exponent"]`. -/
def fingerprintOf (env : Envelope) : String :=
  env.pubkeyModulus ++ ":" ++ env.pubkeyExponent

/-- An event fired on the main-thread dispatcher via `fireCustomEvent`:
either the run-script event (payload: the raw `message` string) or the
verify-run-script event (payload: the full re-serialized envelope). -/
inductive Event where
  | runCommand (msg : String)
  | verifyCommand (env : Envelope)
deriving DecidableEq, Repr

/-- The HTTP response the listener sends: 200 with body `done`, or 500 with
the traceback text. -/
inductive HttpStatus where
  | ok
  | error
deriving DecidableEq, Repr

/-- An externally visible step of `do_POST`, recorded in source order:
the `rsa.verify` call and its outcome, the trust-store lookup and its
result, the `json.loads` of the inner message and its result, a
trust-store write, an HTTP response, a `fireCustomEvent` enqueue. -/
inductive Action where
  | verifySig (ok : Bool)
  | lookupTrusted (key : String) (result : Option Int)
  | parseMsg (result : Option InnerCommand)
  | setTrusted (key : String) (nonce : Int)
  | respond (s : HttpStatus)
  | fireEvent (e : Event)
deriving DecidableEq, Repr

/-- Embeds `RunScriptHTTPRequestHandler.do_POST` on an already-parsed
envelope, with `REQUIRE_CONFIRMATION = True` as in the source.  `verify`
is the oracle for `rsa.verify` on this envelope (false covers both a bad
signature and a malformed key, which raise the same exception into the
same `except` block); `parseInner` is the oracle for
`json.loads(request_json["message"])` (`none` when that raises, including
a missing `nonce` key).  Returns the action trace in source order and the
resulting trust store. -/
def handlePost (verify : Envelope → Bool) (parseInner : String → Option InnerCommand)
    (ts : TrustStore) (env : Envelope) : List Action × TrustStore :=
  if verify env then
    let fp := fingerprintOf env
    match getTrustedKeyNonce ts fp with
    | none =>
        ([Action.verifySig true, Action.lookupTrusted fp none,
          Action.respond HttpStatus.ok, Action.fireEvent (Event.verifyCommand env)], ts)
    | some n =>
        match parseInner env.message with
        | none =>
            ([Action.verifySig true, Action.lookupTrusted fp (some n),
              Action.parseMsg none, Action.respond HttpStatus.error], ts)
        | some inner =>
            if inner.nonce ≤ n then
              ([Action.verifySig true, Action.lookupTrusted fp (some n),
                Action.parseMsg (some inner), Action.respond HttpStatus.error], ts)
            else
              ([Action.verifySig true, Action.lookupTrusted fp (some n),
                Action.parseMsg (some inner), Action.setTrusted fp inner.nonce,
                Action.fireEvent (Event.runCommand env.message),
                Action.respond HttpStatus.ok],
               setTrustedKeyNonce ts fp inner.nonce)
  else
    ([Action.verifySig false, Action.respond HttpStatus.error], ts)

/-- Embeds the outer body handling of `do_POST`: a body whose JSON does not
parse (`none`) raises before any verification and is answered with the
failure status. -/
def handleRequest (verify : Envelope → Bool) (parseInner : String → Option InnerCommand)
    (ts : TrustStore) (body : Option Envelope) : List Action × TrustStore :=
  match body with
  | none => ([Action.respond HttpStatus.error], ts)
  | some env => handlePost verify parseInner ts env

/-- Lowercase hex digit for a value below 16, as Python's `bytes.hex`
produces. -/
def hexDigitChar (n : Nat) : Char :=
  if n < 10 then Char.ofNat (48 + n) else Char.ofNat (87 + n)

/-- Hex encoding of one byte: two lowercase hex digits. -/
def hexEncodeByte (b : Nat) : List Char :=
  [hexDigitChar (b / 16), hexDigitChar (b % 16)]

/-- Embeds `bytes.hex(...)`: lowercase hex encoding of a byte sequence. -/
def hexEncode (bs : List Nat) : String :=
  String.mk (List.flatten (bs.map hexEncodeByte))

/-- The digest the confirmation gate computes:
`bytes.hex(sha1(pubkey_string).digest())` where `pubkey_string` is the
fingerprint.  `sha1` is the oracle for the `hashlib.sha1` library call. -/
def expectedDigest (sha1 : String → List Nat) (env : Envelope) : String :=
  hexEncode (sha1 (fingerprintOf env))

/-- Embeds Python's `str.upper()` as used on the hex digest and the
operator's input: uppercase each character. -/
def strUpper (s : String) : String :=
  String.mk (s.data.map Char.toUpper)

/-- An externally visible step of `VerifyRunScriptEventHandler.notify`,
recorded in source order: showing the input box, a trust-store write, a
`fireCustomEvent` enqueue, the mismatch message box. -/
inductive GateAction where
  | showPrompt
  | setTrusted (key : String) (nonce : Int)
  | fireEvent (e : Event)
  | showMismatchError
deriving DecidableEq, Repr

/-- Embeds `VerifyRunScriptEventHandler.notify` on an already-parsed
envelope.  `typed` and `cancelled` are the operator's input-box result;
`sha1` and `parseInner` are the library oracles as in `handlePost`.  A
`parseInner` failure after a successful digest match raises into the
handler's `except` block, so nothing beyond the prompt happens. -/
def gateNotify (sha1 : String → List Nat) (parseInner : String → Option InnerCommand)
    (ts : TrustStore) (env : Envelope) (typed : String) (cancelled : Bool) :
    List GateAction × TrustStore :=
  if cancelled then
    ([GateAction.showPrompt], ts)
  else
    let fp := fingerprintOf env
    let expected := expectedDigest sha1 env
    if strUpper typed = strUpper expected then
      match parseInner env.message with
      | some inner =>
          ([GateAction.showPrompt, GateAction.setTrusted fp inner.nonce,
            GateAction.fireEvent (Event.runCommand env.message)],
           setTrustedKeyNonce ts fp inner.nonce)
      | none => ([GateAction.showPrompt], ts)
    else
      ([GateAction.showPrompt, GateAction.showMismatchError], ts)

/-- An externally visible step of `RunScriptEventHandler.notify`:
attaching the debugger (`attach_script.attach`), executing the script
(import/reload/run), detaching (`pydevd.stoptrace`). -/
inductive RunAction where
  | attachDebugger (port : Int)
  | execScript (path : String)
  | detachDebugger
deriving DecidableEq, Repr

/-- Python truthiness of the optional `script` value: absent or the empty
string is falsy. -/
def truthyStr : Option String → Bool
  | none => false
  | some s => !(s == "")

/-- Embeds `RunScriptEventHandler.notify` on an already-parsed inner
command: computes `detach = script_path and debug`, returns early when
neither a script nor debugging is requested, otherwise attaches the
debugger if requested, then runs the script if provided, and finally
detaches exactly when `detach` was set. -/
def runScriptNotify (args : InnerCommand) : List RunAction :=
  let scriptRequested := truthyStr args.script
  let debugRequested := args.debug != 0
  let detach := scriptRequested && debugRequested
  if !scriptRequested && !debugRequested then []
  else
    (if debugRequested then [RunAction.attachDebugger args.debugPort] else []) ++
    (if scriptRequested then [RunAction.execScript (args.script.getD "")] else []) ++
    (if detach then [RunAction.detachDebugger] else [])

/-- An SSDP datagram after the parse step of `SSDPRequestHandler.handle`:
the first line, and the `MAN` and `ST` headers when present. -/
structure SSDPRequest where
  requestLine : String
  man : Option String
  st : Option String
deriving DecidableEq, Repr

/-- The acceptance condition of `SSDPRequestHandler.handle`: the request
line and the two headers must match exactly. -/
def ssdpExpected (r : SSDPRequest) : Bool :=
  r.requestLine == "M-SEARCH * HTTP/1.1" &&
  r.man == some "\"ssdp:discover\"" &&
  r.st == some "fusion_idea:debug"

/-- The reply string `SSDPRequestHandler.handle` formats, with the process
id and the HTTP server's port substituted in decimal. -/
def ssdpResponse (pid debugPort : Nat) : String :=
  "HTTP/1.1 200 OK\r\nST: fusion_idea:debug\r\nUSN: pid:" ++ toString pid ++
  "\r\nLocation: 127.0.0.1:" ++ toString debugPort ++ "\r\n\r\n"

/-- Embeds `SSDPRequestHandler.handle`: `none` for the datagram means the
request line/header parse raised (logged, no reply); an accepted request
gets the unicast reply, anything else is logged with no reply. -/
def ssdpHandle (pid debugPort : Nat) (datagram : Option SSDPRequest) : Option String :=
  match datagram with
  | none => none
  | some r => if ssdpExpected r then some (ssdpResponse pid debugPort) else none

/-- C1: for every incoming command envelope, a run-command enqueue occurs
only if signature verification succeeds; the verification step is the
first action of every trace (so it precedes any trust-store lookup or
nonce comparison), and an envelope whose signature does not verify is
answered with the failure response in a trace containing no trust-store
lookup, no message parse, no trust-store write and no enqueue at all. -/
theorem c1_dispatch_requires_signature (verify : Envelope → Bool)
    (parseInner : String → Option InnerCommand) (ts : TrustStore) (env : Envelope) :
    (handlePost verify parseInner ts env).1.head? = some (Action.verifySig (verify env))
    ∧ (∀ m, Action.fireEvent (Event.runCommand m) ∈ (handlePost verify parseInner ts env).1 →
        verify env = true)
    ∧ (verify env = false →
        (handlePost verify parseInner ts env)
          = ([Action.verifySig false, Action.respond HttpStatus.error], ts)) := by
  by_cases hv : verify env
  · refine ⟨?_, fun m _ => hv, fun hfalse => by simp [hv] at hfalse⟩
    unfold handlePost
    rcases hl : getTrustedKeyNonce ts (fingerprintOf env) with _ | n
    · simp [hv, hl]
    · rcases hp : parseInner env.message with _ | inner
      · simp [hv, hl, hp]
      · by_cases hn : inner.nonce ≤ n <;> simp [hv, hl, hp, hn]
  · have hv' : verify env = false := by simpa using hv
    refine ⟨?_, ?_, fun _ => ?_⟩ <;> simp [handlePost, hv']

/-- Witness for C1 at a concrete failing envelope. -/
theorem c1_dispatch_requires_signature_witness :
    (handlePost (fun _ => false) (fun _ => none) [] ⟨"1", "3", "m", "s"⟩)
      = ([Action.verifySig false, Action.respond HttpStatus.error], []) :=
  (c1_dispatch_requires_signature (fun _ => false) (fun _ => none) []
    ⟨"1", "3", "m", "s"⟩).2.2 rfl

/-- C2: an envelope whose signature verifies and whose fingerprint has no
trust record produces exactly this trace — success response first, then
one enqueue of the verify-command event carrying the full envelope — and
leaves the trust store unchanged; the result does not depend on the inner
message parse, hence is regardless of the nonce the envelope carries. -/
theorem c2_first_contact_routes_to_gate (verify : Envelope → Bool)
    (parseInner : String → Option InnerCommand) (ts : TrustStore) (env : Envelope)
    (hv : verify env = true)
    (hn : getTrustedKeyNonce ts (fingerprintOf env) = none) :
    handlePost verify parseInner ts env
      = ([Action.verifySig true, Action.lookupTrusted (fingerprintOf env) none,
          Action.respond HttpStatus.ok, Action.fireEvent (Event.verifyCommand env)], ts) := by
  simp [handlePost, hv, hn]

/-- Witness for C2: a concrete first-contact envelope on the empty store. -/
theorem c2_first_contact_routes_to_gate_witness :
    handlePost (fun _ => true) (fun _ => none) [] ⟨"1", "3", "m", "s"⟩
      = ([Action.verifySig true, Action.lookupTrusted "1:3" none,
          Action.respond HttpStatus.ok,
          Action.fireEvent (Event.verifyCommand ⟨"1", "3", "m", "s"⟩)], []) :=
  c2_first_contact_routes_to_gate (fun _ => true) (fun _ => none) []
    ⟨"1", "3", "m", "s"⟩ rfl rfl

/-- C3: for a verified envelope whose fingerprint has a trust record with
last nonce `n` and whose message parses to `inner`: if `inner.nonce > n`
the command is accepted — the store is updated to `inner.nonce` and the
run-command event is enqueued before the success response; if
`inner.nonce ≤ n` the request gets the failure response, nothing is
enqueued and the store is unchanged. -/
theorem c3_known_key_nonce_check (verify : Envelope → Bool)
    (parseInner : String → Option InnerCommand) (ts : TrustStore) (env : Envelope)
    (n : Int) (inner : InnerCommand)
    (hv : verify env = true)
    (hn : getTrustedKeyNonce ts (fingerprintOf env) = some n)
    (hp : parseInner env.message = some inner) :
    (n < inner.nonce →
      handlePost verify parseInner ts env
        = ([Action.verifySig true, Action.lookupTrusted (fingerprintOf env) (some n),
            Action.parseMsg (some inner),
            Action.setTrusted (fingerprintOf env) inner.nonce,
            Action.fireEvent (Event.runCommand env.message),
            Action.respond HttpStatus.ok],
           setTrustedKeyNonce ts (fingerprintOf env) inner.nonce))
    ∧ (inner.nonce ≤ n →
      handlePost verify parseInner ts env
        = ([Action.verifySig true, Action.lookupTrusted (fingerprintOf env) (some n),
            Action.parseMsg (some inner), Action.respond HttpStatus.error], ts)) := by
  constructor
  · intro hlt
    have hle : ¬ inner.nonce ≤ n := not_le.mpr hlt
    simp [handlePost, hv, hn, hp, hle]
  · intro hle
    simp [handlePost, hv, hn, hp, hle]

/-- Witness for C3: the key `1:3` trusted at nonce 1 accepts a command with
nonce 2, updating the record. -/
theorem c3_known_key_nonce_check_witness :
    handlePost (fun _ => true) (fun _ => some ⟨2, none, 0, 0, ""⟩)
        [("1:3", 1)] ⟨"1", "3", "m", "s"⟩
      = ([Action.verifySig true, Action.lookupTrusted "1:3" (some 1),
          Action.parseMsg (some ⟨2, none, 0, 0, ""⟩),
          Action.setTrusted "1:3" 2,
          Action.fireEvent (Event.runCommand "m"),
          Action.respond HttpStatus.ok], [("1:3", 2)]) :=
  (c3_known_key_nonce_check (fun _ => true) (fun _ => some ⟨2, none, 0, 0, ""⟩)
    [("1:3", 1)] ⟨"1", "3", "m", "s"⟩ 1 ⟨2, none, 0, 0, ""⟩
    rfl (by decide) rfl).1 (by decide)

/-- Number of dispatcher enqueues (`fireCustomEvent` calls) in a trace. -/
def countFires (tr : List Action) : Nat :=
  tr.countP fun a => match a with
    | Action.fireEvent _ => true
    | _ => false

/-- Number of trust-store mutations in a trace. -/
def countSets (tr : List Action) : Nat :=
  tr.countP fun a => match a with
    | Action.setTrusted _ _ => true
    | _ => false

/-- Counterexample to C4 as stated: this envelope passes signature
verification (the oracle verifies it), its fingerprint is trusted at
nonce 5, and its message carries nonce 5 again — a replay — so the
request is rejected with zero dispatcher enqueues, while the claim
demands exactly one for every request that passes signature
verification. -/
theorem c4_counterexample :
    ((fun (_ : Envelope) => true) ⟨"1", "3", "m", "s"⟩ = true)
    ∧ countFires (handlePost (fun _ => true) (fun _ => some ⟨5, none, 0, 0, ""⟩)
        [("1:3", 5)] ⟨"1", "3", "m", "s"⟩).1 = 0 := by
  constructor
  · rfl
  · decide

/-- C4 amended: per request that passes signature verification, the number
of dispatcher enqueues is one for first contact and for an accepted
known-key command, and zero when the inner message fails to parse or its
nonce is a replay; the number of trust-store mutations is one exactly for
an accepted non-first-contact command and zero otherwise. -/
theorem c4_side_effect_counts (verify : Envelope → Bool)
    (parseInner : String → Option InnerCommand) (ts : TrustStore) (env : Envelope)
    (hv : verify env = true) :
    countFires (handlePost verify parseInner ts env).1
      = (match getTrustedKeyNonce ts (fingerprintOf env), parseInner env.message with
         | none, _ => 1
         | some n, some inner => if n < inner.nonce then 1 else 0
         | some _, none => 0)
    ∧ countSets (handlePost verify parseInner ts env).1
      = (match getTrustedKeyNonce ts (fingerprintOf env), parseInner env.message with
         | none, _ => 0
         | some n, some inner => if n < inner.nonce then 1 else 0
         | some _, none => 0) := by
  rcases hl : getTrustedKeyNonce ts (fingerprintOf env) with _ | n
  · constructor <;> simp [handlePost, hv, hl, countFires, countSets]
  · rcases hp : parseInner env.message with _ | inner
    · constructor <;> simp [handlePost, hv, hl, hp, countFires, countSets]
    · by_cases hn : inner.nonce ≤ n
      · have hn' : ¬ n < inner.nonce := not_lt.mpr hn
        constructor <;> simp [handlePost, hv, hl, hp, hn, hn', countFires, countSets]
      · have hn' : n < inner.nonce := not_le.mp hn
        constructor <;> simp [handlePost, hv, hl, hp, hn, hn', countFires, countSets]

/-- Witness for the amended C4: first contact enqueues once and mutates
nothing. -/
theorem c4_side_effect_counts_witness :
    countFires (handlePost (fun _ => true) (fun _ => none) []
        ⟨"1", "3", "m", "s"⟩).1 = 1
    ∧ countSets (handlePost (fun _ => true) (fun _ => none) []
        ⟨"1", "3", "m", "s"⟩).1 = 0 :=
  c4_side_effect_counts (fun _ => true) (fun _ => none) [] ⟨"1", "3", "m", "s"⟩ rfl

/-- C5: the confirmation gate, for an envelope whose fingerprint has no
trust record and whose message parses to `inner`: its accept decision
depends only on the uppercased operator input, so the comparison with the
computed digest is case-insensitive; on cancellation only the prompt
happens and the store is unchanged; on a (case-insensitive) match a trust
record mapping the fingerprint to `inner.nonce` is created and the inner
command is enqueued for execution; on a mismatch the mismatch error is
shown and the store is unchanged. -/
theorem c5_confirmation_gate (sha1 : String → List Nat)
    (parseInner : String → Option InnerCommand) (ts : TrustStore) (env : Envelope)
    (typed : String) (inner : InnerCommand)
    (_hrec : getTrustedKeyNonce ts (fingerprintOf env) = none)
    (hp : parseInner env.message = some inner) :
    (∀ t1 t2 : String, strUpper t1 = strUpper t2 →
        gateNotify sha1 parseInner ts env t1 false
          = gateNotify sha1 parseInner ts env t2 false)
    ∧ gateNotify sha1 parseInner ts env typed true = ([GateAction.showPrompt], ts)
    ∧ (strUpper typed = strUpper (expectedDigest sha1 env) →
        gateNotify sha1 parseInner ts env typed false
          = ([GateAction.showPrompt,
              GateAction.setTrusted (fingerprintOf env) inner.nonce,
              GateAction.fireEvent (Event.runCommand env.message)],
             setTrustedKeyNonce ts (fingerprintOf env) inner.nonce))
    ∧ (strUpper typed ≠ strUpper (expectedDigest sha1 env) →
        gateNotify sha1 parseInner ts env typed false
          = ([GateAction.showPrompt, GateAction.showMismatchError], ts)) := by
  refine ⟨?_, ?_, ?_, ?_⟩
  · intro t1 t2 ht
    by_cases h1 : strUpper t1 = strUpper (expectedDigest sha1 env)
    · have h2 : strUpper t2 = strUpper (expectedDigest sha1 env) := ht ▸ h1
      simp [gateNotify, h1, h2]
    · have h2 : ¬ strUpper t2 = strUpper (expectedDigest sha1 env) := ht ▸ h1
      simp [gateNotify, h1, h2]
  · simp [gateNotify]
  · intro hmatch
    simp [gateNotify, hmatch, hp]
  · intro hmismatch
    simp [gateNotify, hmismatch]

/-- Witness for C5: with a hash oracle yielding bytes `ab 12` the computed
digest is the lowercase string `ab12`, and the operator typing `AB12` is
accepted, creating the record at the command's nonce. -/
theorem c5_confirmation_gate_witness :
    gateNotify (fun _ => [171, 18]) (fun _ => some ⟨7, none, 0, 0, ""⟩)
        [] ⟨"1", "3", "m", "s"⟩ "AB12" false
      = ([GateAction.showPrompt, GateAction.setTrusted "1:3" 7,
          GateAction.fireEvent (Event.runCommand "m")], [("1:3", 7)]) :=
  (c5_confirmation_gate (fun _ => [171, 18]) (fun _ => some ⟨7, none, 0, 0, ""⟩)
    [] ⟨"1", "3", "m", "s"⟩ "AB12" ⟨7, none, 0, 0, ""⟩ rfl rfl).2.2.1 (by decide)

/-- C6: the discovery responder replies exactly to a datagram whose request
line is `M-SEARCH * HTTP/1.1` and whose `MAN` and `ST` headers are the
discover directive and the `fusion_idea:debug` search target; an
unparseable or non-matching datagram gets no reply, and the reply is the
status line with the search-target echo, a USN carrying the pid, and a
Location carrying `127.0.0.1` and the listener's port. -/
theorem c6_ssdp_responder (pid debugPort : Nat) (datagram : Option SSDPRequest) :
    ssdpHandle pid debugPort datagram
      = match datagram with
        | none => none
        | some r =>
            if r.requestLine = "M-SEARCH * HTTP/1.1"
               ∧ r.man = some "\"ssdp:discover\""
               ∧ r.st = some "fusion_idea:debug"
            then some ("HTTP/1.1 200 OK\r\nST: fusion_idea:debug\r\nUSN: pid:"
                   ++ toString pid ++ "\r\nLocation: 127.0.0.1:"
                   ++ toString debugPort ++ "\r\n\r\n")
            else none := by
  rcases datagram with _ | r
  · rfl
  · by_cases h : r.requestLine = "M-SEARCH * HTTP/1.1"
        ∧ r.man = some "\"ssdp:discover\"" ∧ r.st = some "fusion_idea:debug"
    · obtain ⟨h1, h2, h3⟩ := h
      simp [ssdpHandle, ssdpExpected, ssdpResponse, h1, h2, h3]
    · have hb : ssdpExpected r = false := by
        unfold ssdpExpected
        rcases not_and_or.mp h with h1 | h23
        · simp [h1]
        · rcases not_and_or.mp h23 with h2 | h3
          · simp [h2]
          · simp [h3]
      simp [ssdpHandle, hb, h]

/-- C7: executing a run-command item attaches the debugger first when
debugging is requested, then executes the script when a (non-empty) path
is provided, in that order; the debugger is detached afterwards exactly
when both were requested; and a command requesting neither does
nothing. -/
theorem c7_run_command_order (args : InnerCommand) :
    runScriptNotify args
      = (if truthyStr args.script && (args.debug != 0) then
           [RunAction.attachDebugger args.debugPort,
            RunAction.execScript (args.script.getD ""), RunAction.detachDebugger]
         else if args.debug != 0 then
           [RunAction.attachDebugger args.debugPort]
         else if truthyStr args.script then
           [RunAction.execScript (args.script.getD "")]
         else []) := by
  rcases hs : truthyStr args.script <;> rcases hd : args.debug != 0 <;>
    simp [runScriptNotify, hs, hd]

/-- C9: on first contact with a verified envelope the listener's behaviour
is identical under any two inner-message parse oracles — it never parses
the message — its trace contains no parse action, and it still responds
success and enqueues the verify-command event with the full envelope. -/
theorem c9_first_contact_never_parses (verify : Envelope → Bool)
    (p1 p2 : String → Option InnerCommand) (ts : TrustStore) (env : Envelope)
    (hv : verify env = true)
    (hn : getTrustedKeyNonce ts (fingerprintOf env) = none) :
    handlePost verify p1 ts env = handlePost verify p2 ts env
    ∧ (∀ r, Action.parseMsg r ∉ (handlePost verify p1 ts env).1)
    ∧ Action.respond HttpStatus.ok ∈ (handlePost verify p1 ts env).1
    ∧ Action.fireEvent (Event.verifyCommand env) ∈ (handlePost verify p1 ts env).1 := by
  refine ⟨?_, ?_, ?_, ?_⟩ <;> simp [handlePost, hv, hn]

/-- Witness for C9: a first-contact envelope under a parse oracle that
always fails behaves as under one that always succeeds. -/
theorem c9_first_contact_never_parses_witness :
    handlePost (fun _ => true) (fun _ => none) [] ⟨"1", "3", "m", "s"⟩
      = handlePost (fun _ => true) (fun _ => some ⟨0, none, 0, 0, ""⟩) []
          ⟨"1", "3", "m", "s"⟩
    ∧ Action.respond HttpStatus.ok
        ∈ (handlePost (fun _ => true) (fun _ => none) [] ⟨"1", "3", "m", "s"⟩).1 :=
  ⟨(c9_first_contact_never_parses (fun _ => true) (fun _ => none)
      (fun _ => some ⟨0, none, 0, 0, ""⟩) [] ⟨"1", "3", "m", "s"⟩ rfl rfl).1,
   (c9_first_contact_never_parses (fun _ => true) (fun _ => none)
      (fun _ => some ⟨0, none, 0, 0, ""⟩) [] ⟨"1", "3", "m", "s"⟩ rfl rfl).2.2.1⟩

/-- C10: the confirmation digest is the hex encoding of the hash of the
fingerprint string `modulus:exponent`, and it is a function of the key
alone: two envelopes carrying the same modulus and exponent (any
messages, signatures, or points in time) yield the same digest. -/
theorem c10_digest_of_fingerprint (sha1 : String → List Nat) (e1 e2 : Envelope)
    (hm : e1.pubkeyModulus = e2.pubkeyModulus)
    (he : e1.pubkeyExponent = e2.pubkeyExponent) :
    expectedDigest sha1 e1
      = hexEncode (sha1 (e1.pubkeyModulus ++ ":" ++ e1.pubkeyExponent))
    ∧ expectedDigest sha1 e1 = expectedDigest sha1 e2 := by
  constructor
  · rfl
  · simp [expectedDigest, fingerprintOf, hm, he]

/-- Witness for C10: two envelopes with the same key but different messages
get the same digest. -/
theorem c10_digest_of_fingerprint_witness :
    expectedDigest (fun _ => [0, 255]) ⟨"1", "3", "m", "s"⟩
      = expectedDigest (fun _ => [0, 255]) ⟨"1", "3", "other", "sig"⟩ :=
  (c10_digest_of_fingerprint (fun _ => [0, 255]) ⟨"1", "3", "m", "s"⟩
    ⟨"1", "3", "other", "sig"⟩ rfl rfl).2

end FusionIdeaAddin
